import Mathlib

/-!
Verification of the bouncing-ball physics core (skunk package).

Shallow embedding of `src/skunk/physics/vector2d.py`, `collision.py`,
`forces.py`, `src/skunk/model/ball.py` and `simulation.py`.  Python floats
are modelled as real numbers; the fallible scalar-division operator is
modelled with `Option`; the random draws of the ball factory are passed in
explicitly as oracle arguments.
-/

open scoped Classical

noncomputable section

namespace Skunk

/-- Embedding of `Vector2D` (vector2d.py): an immutable 2-D vector. -/
@[ext]
structure Vector2D where
  x : ℝ
  y : ℝ

namespace Vector2D

/-- `__add__` -/
instance : Add Vector2D := ⟨fun a b => ⟨a.x + b.x, a.y + b.y⟩⟩

/-- `__sub__` -/
instance : Sub Vector2D := ⟨fun a b => ⟨a.x - b.x, a.y - b.y⟩⟩

/-- `__neg__` -/
instance : Neg Vector2D := ⟨fun a => ⟨-a.x, -a.y⟩⟩

/-- `__mul__` (vector times scalar) -/
instance : HMul Vector2D ℝ Vector2D := ⟨fun v s => ⟨v.x * s, v.y * s⟩⟩

@[simp] theorem add_def (a b : Vector2D) : a + b = ⟨a.x + b.x, a.y + b.y⟩ := rfl
@[simp] theorem sub_def (a b : Vector2D) : a - b = ⟨a.x - b.x, a.y - b.y⟩ := rfl
@[simp] theorem neg_def (a : Vector2D) : -a = ⟨-a.x, -a.y⟩ := rfl
@[simp] theorem mul_def (v : Vector2D) (s : ℝ) : v * s = ⟨v.x * s, v.y * s⟩ := rfl

/-- `__truediv__`: Python raises `ZeroDivisionError` on a zero scalar, so the
embedding returns `Option`: `none` models the raised error. -/
def truediv (v : Vector2D) (s : ℝ) : Option Vector2D :=
  if s = 0 then none else some ⟨v.x / s, v.y / s⟩

/-- `magnitude` property: `math.hypot(x, y) = sqrt(x² + y²)`. -/
def magnitude (v : Vector2D) : ℝ :=
  Real.sqrt (v.x * v.x + v.y * v.y)

/-- `magnitude_sq` property. -/
def magnitude_sq (v : Vector2D) : ℝ :=
  v.x * v.x + v.y * v.y

/-- `normalized()`: unit vector in the same direction, zero vector when the
magnitude is exactly zero. -/
def normalized (v : Vector2D) : Vector2D :=
  let mag := v.magnitude
  if mag = 0 then ⟨0, 0⟩ else ⟨v.x / mag, v.y / mag⟩

/-- `dot` -/
def dot (a b : Vector2D) : ℝ :=
  a.x * b.x + a.y * b.y

/-- `distance_to` -/
def distance_to (a b : Vector2D) : ℝ :=
  (a - b).magnitude

/-- `distance_sq_to` -/
def distance_sq_to (a b : Vector2D) : ℝ :=
  (a - b).magnitude_sq

/-- `from_angle` static factory. -/
def from_angle (angle_rad : ℝ) (mag : ℝ) : Vector2D :=
  ⟨Real.cos angle_rad * mag, Real.sin angle_rad * mag⟩

/-- `clamped(max_magnitude)` -/
def clamped (v : Vector2D) (max_magnitude : ℝ) : Vector2D :=
  if v.magnitude_sq ≤ max_magnitude * max_magnitude then v
  else v.normalized * max_magnitude

end Vector2D

/-! ### Constants (constants.py) -/

def WINDOW_WIDTH : ℝ := 800
def WINDOW_HEIGHT : ℝ := 450
def STATUS_BAR_HEIGHT : ℝ := 30
def PLAY_AREA_HEIGHT : ℝ := WINDOW_HEIGHT - STATUS_BAR_HEIGHT
def MIN_RADIUS : ℝ := 12
def MAX_RADIUS : ℝ := 30
def MIN_SPEED : ℝ := 0.5
def MAX_SPEED : ℝ := 3.0
def MASS_DENSITY : ℝ := 1.0
def SURFACE_FRICTION : ℝ := 0.9999
def GRAVITY_ACCEL : ℝ := 0.15
def BOUNCE_RESTITUTION : ℝ := 0.85
def FLOOR_FRICTION : ℝ := 0.99
def AIR_RESISTANCE : ℝ := 0.9995
def LEFT_WALL_BOOST : ℝ := 1.12
def MAX_SPEED_CAP : ℝ := 5.0
def SHOCKWAVE_STRENGTH : ℝ := 800.0
def SHOCKWAVE_RADIUS : ℝ := 400.0

/-! ### Force and impulse functions (forces.py) -/

/-- `apply_surface_friction`: `v * SURFACE_FRICTION ** sqrt(mass)`. -/
def apply_surface_friction (velocity : Vector2D) (mass : ℝ) : Vector2D :=
  velocity * (SURFACE_FRICTION ^ Real.sqrt mass)

/-- `apply_gravity`: `v + (0, GRAVITY_ACCEL)`. -/
def apply_gravity (velocity : Vector2D) : Vector2D :=
  velocity + ⟨0, GRAVITY_ACCEL⟩

/-- `apply_air_resistance`: `v * AIR_RESISTANCE`. -/
def apply_air_resistance (velocity : Vector2D) : Vector2D :=
  velocity * AIR_RESISTANCE

/-- `apply_floor_friction`: damps only the x-component. -/
def apply_floor_friction (velocity : Vector2D) : Vector2D :=
  ⟨velocity.x * FLOOR_FRICTION, velocity.y⟩

/-- `apply_bounce_restitution`: damps only the y-component. -/
def apply_bounce_restitution (velocity : Vector2D) : Vector2D :=
  ⟨velocity.x, velocity.y * BOUNCE_RESTITUTION⟩

/-- `compute_wall_boost`. -/
def compute_wall_boost (velocity : Vector2D) : Vector2D :=
  if velocity.magnitude ≥ MAX_SPEED_CAP then velocity.clamped MAX_SPEED_CAP
  else (Vector2D.mk (velocity.x * LEFT_WALL_BOOST) velocity.y).clamped MAX_SPEED_CAP

/-- `compute_shockwave_impulse`. -/
def compute_shockwave_impulse (ball_pos shockwave_origin : Vector2D) : Vector2D :=
  let delta := ball_pos - shockwave_origin
  let dist := delta.magnitude
  if dist > SHOCKWAVE_RADIUS then ⟨0, 0⟩
  else
    let safe_dist := max dist 1.0
    let strength := SHOCKWAVE_STRENGTH / safe_dist
    delta.normalized * strength

/-! ### Collision engine (collision.py) -/

/-- `detect_collision`: circles overlap when the squared distance is strictly
below the squared radius sum. -/
def detect_collision (pos_a : Vector2D) (radius_a : ℝ) (pos_b : Vector2D)
    (radius_b : ℝ) : Prop :=
  let min_dist := radius_a + radius_b
  pos_a.distance_sq_to pos_b < min_dist * min_dist

/-- The unit collision normal computed by `resolve_collision` (lines 65-73):
`normal = pos_a - pos_b`, with the fallback `(1, 0)` when the two centres
coincide, then normalized. -/
def collision_unit_normal (pos_a pos_b : Vector2D) : Vector2D :=
  let normal := pos_a - pos_b
  let dist := normal.magnitude
  let normal := if dist = 0 then Vector2D.mk 1.0 0.0 else normal
  normal.normalized

/-- The distance used by `resolve_collision` for overlap math: the true
centre distance, except that coincident centres substitute `1.0`. -/
def effective_dist (pos_a pos_b : Vector2D) : ℝ :=
  let dist := (pos_a - pos_b).magnitude
  if dist = 0 then 1.0 else dist

/-- The relative velocity of A w.r.t. B along the collision normal
(`vel_along_normal` in `resolve_collision`). -/
def vel_along_normal (pos_a pos_b vel_a vel_b : Vector2D) : ℝ :=
  (vel_a - vel_b).dot (collision_unit_normal pos_a pos_b)

/-- `resolve_collision`: post-collision velocities and separated positions,
returned as `(new_vel_a, new_vel_b, new_pos_a, new_pos_b)`.  The helper
definitions above name its intermediate values. -/
def resolve_collision (pos_a vel_a : Vector2D) (mass_a radius_a : ℝ)
    (pos_b vel_b : Vector2D) (mass_b radius_b : ℝ) :
    Vector2D × Vector2D × Vector2D × Vector2D :=
  let dist := effective_dist pos_a pos_b
  let n := collision_unit_normal pos_a pos_b
  let rel_vel := vel_a - vel_b
  let vel_along := rel_vel.dot n
  if vel_along > 0 then
    -- Already moving apart: keep velocities, still fix overlap.
    let overlap := (radius_a + radius_b) - dist
    if overlap > 0 then
      let correction := n * (overlap / 2 + 0.5)
      (vel_a, vel_b, pos_a + correction, pos_b - correction)
    else
      (vel_a, vel_b, pos_a, pos_b)
  else
    -- 2-D elastic collision impulse.
    let total_mass := mass_a + mass_b
    let impulse := (2 * vel_along) / total_mass
    let new_vel_a := vel_a - n * (impulse * mass_b)
    let new_vel_b := vel_b + n * (impulse * mass_a)
    let overlap := (radius_a + radius_b) - dist
    if overlap > 0 then
      let correction := n * (overlap / 2 + 0.5)
      (new_vel_a, new_vel_b, pos_a + correction, pos_b - correction)
    else
      (new_vel_a, new_vel_b, pos_a, pos_b)

/-! ### Ball entity (ball.py) -/

/-- RGB colour triple (presentation-only). -/
abbrev Color : Type := ℕ × ℕ × ℕ

/-- Embedding of the `Ball` entity: mass is derived at construction as
`MASS_DENSITY * π * r²` and never changes. -/
structure Ball where
  position : Vector2D
  velocity : Vector2D
  radius : ℝ
  mass : ℝ
  color : Color

namespace Ball

/-- `Ball.__init__`: derives the mass from the radius. -/
def init (position velocity : Vector2D) (radius : ℝ) (color : Color) : Ball :=
  { position := position
    velocity := velocity
    radius := radius
    mass := MASS_DENSITY * Real.pi * radius * radius
    color := color }

/-- `kinetic_energy` derived property. -/
def kinetic_energy (b : Ball) : ℝ :=
  0.5 * b.mass * b.velocity.magnitude_sq

/-- `update_position`: advance by one frame of velocity. -/
def update_position (b : Ball) : Ball :=
  { b with position := b.position + b.velocity }

/-- `apply_impulse`: add an instantaneous velocity change. -/
def apply_impulse (b : Ball) (impulse : Vector2D) : Ball :=
  { b with velocity := b.velocity + impulse }

/-- `clamp_speed` with the default cap. -/
def clamp_speed (b : Ball) : Ball :=
  { b with velocity := b.velocity.clamped MAX_SPEED_CAP }

/-- `handle_wall_bounce` (no-gravity variant): returns the bounced ball and
whether the left wall was hit. -/
def handle_wall_bounce (b : Ball) (width height : ℝ) : Ball × Bool :=
  let px := b.position.x
  let py := b.position.y
  let vx := b.velocity.x
  let vy := b.velocity.y
  let xres : ℝ × ℝ × Bool :=
    if px - b.radius ≤ 0 ∧ vx < 0 then (-vx, b.radius, true)
    else if px + b.radius ≥ width ∧ vx > 0 then (-vx, width - b.radius, false)
    else (vx, px, false)
  let yres : ℝ × ℝ :=
    if py - b.radius ≤ 0 ∧ vy < 0 then (-vy, b.radius)
    else if py + b.radius ≥ height ∧ vy > 0 then (-vy, height - b.radius)
    else (vy, py)
  ({ b with position := ⟨xres.2.1, yres.2⟩, velocity := ⟨xres.1, yres.1⟩ },
    xres.2.2)

/-- `handle_wall_bounce_gravity`: additionally reports a floor hit. -/
def handle_wall_bounce_gravity (b : Ball) (width height : ℝ) :
    Ball × Bool × Bool :=
  let px := b.position.x
  let py := b.position.y
  let vx := b.velocity.x
  let vy := b.velocity.y
  let xres : ℝ × ℝ × Bool :=
    if px - b.radius ≤ 0 ∧ vx < 0 then (-vx, b.radius, true)
    else if px + b.radius ≥ width ∧ vx > 0 then (-vx, width - b.radius, false)
    else (vx, px, false)
  let yres : ℝ × ℝ × Bool :=
    if py - b.radius ≤ 0 ∧ vy < 0 then (-vy, b.radius, false)
    else if py + b.radius ≥ height ∧ vy > 0 then (-vy, height - b.radius, true)
    else (vy, py, false)
  ({ b with position := ⟨xres.2.1, yres.2.1⟩, velocity := ⟨xres.1, yres.1⟩ },
    xres.2.2, yres.2.2)

/-- `create_random`: the random draws (radius, angle, speed) are passed in
explicitly as oracle arguments; an explicit velocity overrides the random
one, exactly as in the Python factory. -/
def create_random (position : Vector2D) (color : Color)
    (velocity : Option Vector2D) (radius angle speed : ℝ) : Ball :=
  let vel := match velocity with
    | some v => v
    | none => Vector2D.from_angle angle speed
  Ball.init position vel radius color

end Ball

/-! ### Simulation orchestrator (simulation.py) -/

/-- A shockwave visual-effect record: an origin Vector2D and an integer age. -/
structure ShockwaveEffect where
  origin : Vector2D
  age : ℕ

def WALL_GLOW_DURATION : ℝ := 30
def SHOCKWAVE_VISUAL_DURATION : ℕ := 20

/-- Embedding of the `Simulation` state. -/
structure Simulation where
  balls : List Ball
  gravity_on : Bool
  paused : Bool
  wall_glow_timer : ℝ
  shockwave_effects : List ShockwaveEffect
  initial_balls : List (Vector2D × Vector2D × ℝ × Color)

namespace Simulation

/-- `Simulation.__init__`. -/
def init : Simulation :=
  { balls := []
    gravity_on := false
    paused := false
    wall_glow_timer := 0
    shockwave_effects := []
    initial_balls := [] }

/-- One iteration of the per-ball force/integration/wall loop of `update`
(simulation.py lines 122-148), returning the processed ball and the
`hit_left` flag.  The loop body touches only the ball itself and (via the
flag) the glow timer, so it is a function of the gravity mode and the ball. -/
def stepBall (gravity_on : Bool) (b : Ball) : Ball × Bool :=
  if gravity_on then
    let b1 : Ball := { b with
      velocity := apply_air_resistance (apply_gravity b.velocity) }
    let b2 := b1.update_position
    let res := b2.handle_wall_bounce_gravity WINDOW_WIDTH PLAY_AREA_HEIGHT
    let b3 := res.1
    let hit_left := res.2.1
    let hit_floor := res.2.2
    let b4 := if hit_floor then
        { b3 with velocity := apply_floor_friction (apply_bounce_restitution b3.velocity) }
      else b3
    let b5 := if hit_left then
        { b4 with velocity := compute_wall_boost b4.velocity }
      else b4
    (b5.clamp_speed, hit_left)
  else
    let b1 : Ball := { b with
      velocity := apply_surface_friction b.velocity b.mass }
    let b2 := b1.update_position
    let res := b2.handle_wall_bounce WINDOW_WIDTH PLAY_AREA_HEIGHT
    let b3 := res.1
    let hit_left := res.2
    let b4 := if hit_left then
        { b3 with velocity := compute_wall_boost b3.velocity }
      else b3
    (b4.clamp_speed, hit_left)

/-- The per-ball loop of `update`, threading the glow timer (set to the full
duration whenever a ball reports a left-wall hit). -/
def phase1 (gravity_on : Bool) (timer : ℝ) : List Ball → List Ball × ℝ
  | [] => ([], timer)
  | b :: rest =>
    let res := stepBall gravity_on b
    let timer1 := if res.2 then WALL_GLOW_DURATION else timer
    let rec0 := phase1 gravity_on timer1 rest
    (res.1 :: rec0.1, rec0.2)

/-- One inner-loop step of the pairwise collision pass: read balls `i` and
`j` from the current list, and when they collide write back the resolved
velocities/positions. -/
def collidePair (balls : List Ball) (i j : ℕ) : List Ball :=
  match balls[i]?, balls[j]? with
  | some a, some b =>
    if detect_collision a.position a.radius b.position b.radius then
      let r := resolve_collision a.position a.velocity a.mass a.radius
        b.position b.velocity b.mass b.radius
      (balls.set i { a with velocity := r.1, position := r.2.2.1 }).set j
        { b with velocity := r.2.1, position := r.2.2.2 }
    else balls
  | _, _ => balls

/-- The index pairs `(i, j)` with `i < j < n`, in the order the Python
nested loops visit them. -/
def pairIndices (n : ℕ) : List (ℕ × ℕ) :=
  (List.range n).flatMap fun i =>
    ((List.range n).filter fun j => i < j).map fun j => (i, j)

/-- The pairwise collision pass (simulation.py lines 150-163). -/
def collisionPass (balls : List Ball) : List Ball :=
  (pairIndices balls.length).foldl (fun bs p => collidePair bs p.1 p.2) balls

/-- End-of-frame effect aging (lines 169-174): every effect ages by 1 and
only effects strictly younger than the visual duration survive. -/
def ageEffects (effects : List ShockwaveEffect) : List ShockwaveEffect :=
  (effects.map fun e => { e with age := e.age + 1 }).filter
    fun e => e.age < SHOCKWAVE_VISUAL_DURATION

/-- `Simulation.update`: one frame. -/
def update (sim : Simulation) : Simulation :=
  if sim.paused then sim
  else
    let p1 := phase1 sim.gravity_on sim.wall_glow_timer sim.balls
    let balls2 := collisionPass p1.1
    let timer1 := p1.2
    let timer2 := if timer1 > 0 then timer1 - 1 else timer1
    { sim with
      balls := balls2
      wall_glow_timer := timer2
      shockwave_effects := ageEffects sim.shockwave_effects }

/-- `spawn_ball`, with the random draws of the ball factory passed as oracle
arguments.  Returns the Python return value paired with the post-state. -/
def spawn_ball (sim : Simulation) (position : Vector2D) (color : Color)
    (velocity : Option Vector2D) (radius angle speed : ℝ) :
    Option Ball × Simulation :=
  let test_radius := (MIN_RADIUS + MAX_RADIUS) / 2
  if ∃ b ∈ sim.balls, position.distance_to b.position < test_radius + b.radius
  then (none, sim)
  else
    let ball := Ball.create_random position color velocity radius angle speed
    if ∃ b ∈ sim.balls, position.distance_to b.position < ball.radius + b.radius
    then (none, sim)
    else
      (some ball,
        { sim with
          balls := sim.balls ++ [ball]
          initial_balls := sim.initial_balls ++
            [(ball.position, ball.velocity, ball.radius, ball.color)] })

/-- `remove_ball`: `list.remove` drops the first matching element; absent
balls are a no-op thanks to the `in` guard. -/
def removeFirst : List Ball → Ball → List Ball
  | [], _ => []
  | b :: rest, target =>
    if b = target then rest else b :: removeFirst rest target

def remove_ball (sim : Simulation) (ball : Ball) : Simulation :=
  { sim with balls := removeFirst sim.balls ball }

/-- `reset`. -/
def reset (sim : Simulation) : Simulation :=
  { sim with
    balls := []
    gravity_on := false
    paused := false
    wall_glow_timer := 0
    shockwave_effects := []
    initial_balls := [] }

/-- `apply_shockwave`. -/
def apply_shockwave (sim : Simulation) (origin : Vector2D) : Simulation :=
  { sim with
    balls := sim.balls.map fun b =>
      (b.apply_impulse (compute_shockwave_impulse b.position origin)).clamp_speed
    shockwave_effects := sim.shockwave_effects ++ [⟨origin, 0⟩] }

/-- `toggle_gravity`. -/
def toggle_gravity (sim : Simulation) : Simulation :=
  { sim with gravity_on := !sim.gravity_on }

/-- `toggle_pause`. -/
def toggle_pause (sim : Simulation) : Simulation :=
  { sim with paused := !sim.paused }

/-- `total_energy` query. -/
def total_energy (sim : Simulation) : ℝ :=
  (sim.balls.map Ball.kinetic_energy).sum

end Simulation

/-- States reachable from the initial state through the public operations. -/
inductive Reachable : Simulation → Prop
  | init : Reachable Simulation.init
  | spawn (s : Simulation) (position : Vector2D) (color : Color)
      (velocity : Option Vector2D) (radius angle speed : ℝ) :
      Reachable s →
      Reachable (s.spawn_ball position color velocity radius angle speed).2
  | update (s : Simulation) : Reachable s → Reachable s.update
  | remove (s : Simulation) (ball : Ball) : Reachable s →
      Reachable (s.remove_ball ball)
  | reset (s : Simulation) : Reachable s → Reachable s.reset
  | shockwave (s : Simulation) (origin : Vector2D) : Reachable s →
      Reachable (s.apply_shockwave origin)
  | toggle_gravity (s : Simulation) : Reachable s →
      Reachable s.toggle_gravity
  | toggle_pause (s : Simulation) : Reachable s →
      Reachable s.toggle_pause

/-! ### Basic vector lemmas -/

theorem Vector2D.magnitude_nonneg (v : Vector2D) : 0 ≤ v.magnitude :=
  Real.sqrt_nonneg _

theorem Vector2D.magnitude_sq_nonneg (v : Vector2D) : 0 ≤ v.magnitude_sq :=
  add_nonneg (mul_self_nonneg _) (mul_self_nonneg _)

theorem Vector2D.magnitude_eq_zero_iff (v : Vector2D) :
    v.magnitude = 0 ↔ v = ⟨0, 0⟩ := by
  unfold magnitude
  rw [Real.sqrt_eq_zero']
  constructor
  · intro h
    have hx : v.x = 0 := by nlinarith [mul_self_nonneg v.x, mul_self_nonneg v.y]
    have hy : v.y = 0 := by nlinarith [mul_self_nonneg v.x, mul_self_nonneg v.y]
    ext <;> simp [hx, hy]
  · intro h
    rw [h]
    norm_num

theorem Vector2D.mul_self_magnitude (v : Vector2D) :
    v.magnitude * v.magnitude = v.x * v.x + v.y * v.y :=
  Real.mul_self_sqrt (add_nonneg (mul_self_nonneg _) (mul_self_nonneg _))

theorem Vector2D.magnitude_sq_eq (v : Vector2D) :
    v.magnitude_sq = v.magnitude * v.magnitude :=
  (v.mul_self_magnitude).symm

/-- A nonzero vector normalizes to a unit vector (unit in the squared sense). -/
theorem Vector2D.normalized_magnitude_sq (v : Vector2D) (h : v.magnitude ≠ 0) :
    v.normalized.magnitude_sq = 1 := by
  unfold normalized magnitude_sq
  rw [if_neg h]
  have hm := mul_self_magnitude v
  field_simp
  linarith [hm]

/-- Magnitude of a scaled vector. -/
theorem Vector2D.magnitude_mul (v : Vector2D) (s : ℝ) :
    (v * s).magnitude = v.magnitude * |s| := by
  unfold magnitude
  simp only [mul_def]
  rw [show v.x * s * (v.x * s) + v.y * s * (v.y * s)
      = (v.x * v.x + v.y * v.y) * (s * s) by ring]
  rw [Real.sqrt_mul (add_nonneg (mul_self_nonneg _) (mul_self_nonneg _)),
    Real.sqrt_mul_self_eq_abs]

/-- The collision normal is always a unit vector (squared norm 1). -/
theorem collision_unit_normal_sq (pos_a pos_b : Vector2D) :
    (collision_unit_normal pos_a pos_b).magnitude_sq = 1 := by
  simp only [collision_unit_normal]
  by_cases h : (pos_a - pos_b).magnitude = 0
  · rw [if_pos h]
    have h1 : (Vector2D.mk 1.0 0.0).magnitude ≠ 0 := by
      rw [Ne, Vector2D.magnitude_eq_zero_iff]
      intro hc
      have := congrArg Vector2D.x hc
      norm_num at this
    exact Vector2D.normalized_magnitude_sq _ h1
  · rw [if_neg h]
    exact Vector2D.normalized_magnitude_sq _ h

/-- The effective distance is strictly positive. -/
theorem effective_dist_pos (pos_a pos_b : Vector2D) :
    0 < effective_dist pos_a pos_b := by
  simp only [effective_dist]
  by_cases h : (pos_a - pos_b).magnitude = 0
  · rw [if_pos h]; norm_num
  · rw [if_neg h]
    exact lt_of_le_of_ne (Vector2D.magnitude_nonneg _) (Ne.symm h)

theorem Vector2D.magnitude_one_zero : (Vector2D.mk 1.0 0.0).magnitude = 1 := by
  unfold magnitude
  norm_num

/-- Evaluate a magnitude from a perfect-square decomposition. -/
theorem Vector2D.magnitude_eval (x y m : ℝ) (h : x * x + y * y = m * m)
    (hm : 0 ≤ m) : (Vector2D.mk x y).magnitude = m := by
  unfold magnitude
  rw [h, Real.sqrt_mul_self hm]

/-- Evaluate `normalized` once the magnitude is known and nonzero. -/
theorem Vector2D.normalized_eq (v : Vector2D) (m : ℝ) (hm : v.magnitude = m)
    (h : m ≠ 0) : v.normalized = ⟨v.x / m, v.y / m⟩ := by
  simp only [normalized]
  rw [hm, if_neg h]

/-- A nonzero vector normalizes to magnitude exactly 1. -/
theorem Vector2D.normalized_magnitude (v : Vector2D) (h : v.magnitude ≠ 0) :
    v.normalized.magnitude = 1 := by
  have h1 := v.normalized_magnitude_sq h
  unfold magnitude_sq at h1
  unfold magnitude
  rw [h1, Real.sqrt_one]

theorem Vector2D.sub_self_magnitude (p : Vector2D) : (p - p).magnitude = 0 := by
  rw [Vector2D.magnitude_eq_zero_iff]
  ext <;> simp

/-- The subtraction of two vectors vanishes exactly when they are equal. -/
theorem Vector2D.sub_eq_zero_iff (a b : Vector2D) :
    (a - b).magnitude = 0 ↔ a = b := by
  rw [Vector2D.magnitude_eq_zero_iff]
  constructor
  · intro h
    have hx := congrArg Vector2D.x h
    have hy := congrArg Vector2D.y h
    simp only [Vector2D.sub_def] at hx hy
    ext <;> [linarith [hx]; linarith [hy]]
  · intro h
    rw [h]
    ext <;> simp

/-- Coincident centres take the `(1, 0)` fallback normal. -/
theorem collision_unit_normal_coincident (p : Vector2D) :
    collision_unit_normal p p = ⟨1, 0⟩ := by
  simp only [collision_unit_normal]
  rw [if_pos (Vector2D.sub_self_magnitude p)]
  rw [Vector2D.normalized_eq _ 1 Vector2D.magnitude_one_zero (by norm_num)]
  ext <;> norm_num

/-- Coincident centres take the substituted distance `1.0`. -/
theorem effective_dist_coincident (p : Vector2D) : effective_dist p p = 1 := by
  simp only [effective_dist]
  rw [if_pos (Vector2D.sub_self_magnitude p)]
  norm_num

/-- Distinct centres keep the true distance. -/
theorem effective_dist_eval (pa pb : Vector2D) (m : ℝ)
    (hm : (pa - pb).magnitude = m) (h : m ≠ 0) : effective_dist pa pb = m := by
  simp only [effective_dist]
  rw [hm, if_neg h]

/-- Distinct centres take the normalized difference as unit normal. -/
theorem collision_unit_normal_eval (pa pb : Vector2D) (m : ℝ)
    (hm : (pa - pb).magnitude = m) (h : m ≠ 0) :
    collision_unit_normal pa pb = ⟨(pa.x - pb.x) / m, (pa.y - pb.y) / m⟩ := by
  simp only [collision_unit_normal]
  rw [hm, if_neg h, Vector2D.normalized_eq _ m hm h]
  ext <;> simp

/-- Distinct centres use the normalized difference as the collision normal. -/
theorem collision_unit_normal_of_ne (pa pb : Vector2D)
    (hm0 : (pa - pb).magnitude ≠ 0) :
    collision_unit_normal pa pb = (pa - pb).normalized := by
  simp only [collision_unit_normal]
  rw [if_neg hm0]

/-- Distance of two centres after the symmetric push-apart along the
normalized difference. -/
theorem distance_after_correction (pa pb : Vector2D) (s : ℝ)
    (hm0 : (pa - pb).magnitude ≠ 0) :
    Vector2D.distance_to (pa + (pa - pb).normalized * s)
      (pb - (pa - pb).normalized * s)
      = |(pa - pb).magnitude + 2 * s| := by
  have hmpos : 0 < (pa - pb).magnitude :=
    lt_of_le_of_ne (Vector2D.magnitude_nonneg _) (Ne.symm hm0)
  have hdiff : (pa + (pa - pb).normalized * s) - (pb - (pa - pb).normalized * s)
      = (pa - pb) * (1 + 2 * s / (pa - pb).magnitude) := by
    rw [Vector2D.normalized_eq _ _ rfl hm0]
    ext <;> (dsimp; field_simp; ring)
  rw [Vector2D.distance_to, hdiff, Vector2D.magnitude_mul,
    show (pa - pb).magnitude * |1 + 2 * s / (pa - pb).magnitude|
      = |(pa - pb).magnitude * (1 + 2 * s / (pa - pb).magnitude)| by
        rw [abs_mul, abs_of_pos hmpos]]
  congr 1
  have hne2 : (Vector2D.mk (pa.x - pb.x) (pa.y - pb.y)).magnitude ≠ 0 := by
    rw [← Vector2D.sub_def]
    exact hm0
  field_simp [hne2]

/-! ### Claim theorems -/

/-- C3: `detect_collision` returns true iff the squared distance between the
centres is strictly less than `(radius_a + radius_b)²`; in particular, when
the distance exactly equals the sum of the radii (bodies exactly touching)
it returns false. -/
theorem detect_collision_strict_boundary (a : Vector2D) (ra : ℝ) (b : Vector2D)
    (rb : ℝ) :
    (detect_collision a ra b rb ↔
      (a.x - b.x) ^ 2 + (a.y - b.y) ^ 2 < (ra + rb) ^ 2) ∧
    (a.distance_to b = ra + rb → ¬ detect_collision a ra b rb) := by
  constructor
  · unfold detect_collision Vector2D.distance_sq_to Vector2D.magnitude_sq
    simp only [Vector2D.sub_def]
    constructor <;> intro h <;> nlinarith [h]
  · intro hd hcol
    unfold detect_collision Vector2D.distance_sq_to at hcol
    rw [Vector2D.magnitude_sq_eq] at hcol
    unfold Vector2D.distance_to at hd
    rw [hd] at hcol
    exact lt_irrefl _ hcol

/-- Witness for C3: circles of radii 2 and 1 whose centres are exactly 3
apart do not collide. -/
theorem detect_collision_strict_boundary_witness :
    (Vector2D.mk 3 0).distance_to ⟨0, 0⟩ = 2 + 1 ∧
    ¬ detect_collision ⟨3, 0⟩ 2 ⟨0, 0⟩ 1 := by
  have hd : (Vector2D.mk 3 0).distance_to ⟨0, 0⟩ = 2 + 1 := by
    unfold Vector2D.distance_to Vector2D.magnitude
    simp only [Vector2D.sub_def]
    rw [show ((3:ℝ) - 0) * (3 - 0) + (0 - 0) * (0 - 0) = 3 * 3 by norm_num,
      Real.sqrt_mul_self (by norm_num : (0:ℝ) ≤ 3)]
    norm_num
  exact ⟨hd, (detect_collision_strict_boundary ⟨3, 0⟩ 2 ⟨0, 0⟩ 1).2 hd⟩

/-- C10: in every branch of `resolve_collision` the two position corrections
are equal and opposite, so the sum of the returned centres equals the sum of
the input centres (the midpoint is preserved). -/
theorem resolve_collision_center_sum (pos_a vel_a : Vector2D)
    (mass_a radius_a : ℝ) (pos_b vel_b : Vector2D) (mass_b radius_b : ℝ) :
    (resolve_collision pos_a vel_a mass_a radius_a pos_b vel_b mass_b radius_b).2.2.1
      + (resolve_collision pos_a vel_a mass_a radius_a pos_b vel_b mass_b radius_b).2.2.2
      = pos_a + pos_b := by
  simp only [resolve_collision]
  split_ifs <;> ext <;> simp

/-- C6: while paused, any number of `update()` calls leave the whole
simulation state (all balls, timers, effects, flags) unchanged. -/
theorem update_paused_noop (sim : Simulation) (h : sim.paused = true) (n : ℕ) :
    Simulation.update^[n] sim = sim := by
  have h1 : sim.update = sim := by
    unfold Simulation.update
    rw [if_pos h]
  induction n with
  | zero => rfl
  | succ k ih => rw [Function.iterate_succ_apply, h1, ih]

/-- A concrete paused simulation used to witness C6. -/
def pausedDemo : Simulation :=
  { balls := [Ball.init ⟨100, 100⟩ ⟨1, 2⟩ 12 (3, 4, 5)]
    gravity_on := false
    paused := true
    wall_glow_timer := 7
    shockwave_effects := [⟨⟨1, 1⟩, 3⟩]
    initial_balls := [] }

/-- Witness for C6 at a concrete paused state. -/
theorem update_paused_noop_witness :
    Simulation.update^[3] pausedDemo = pausedDemo :=
  update_paused_noop pausedDemo rfl 3

/-- C7: scalar division by exactly zero is the only explicit failure of the
core (modelled as `none`); division by a nonzero scalar returns the
component-wise quotient; zero-magnitude normalization, the zero-distance
shockwave epicentre, and zero-distance collision resolution all take their
defined fallbacks instead of failing. -/
theorem truediv_only_failure :
    (∀ v : Vector2D, v.truediv 0 = none) ∧
    (∀ (v : Vector2D) (s : ℝ), s ≠ 0 →
      v.truediv s = some ⟨v.x / s, v.y / s⟩) ∧
    (∀ v : Vector2D, v.magnitude = 0 → v.normalized = ⟨0, 0⟩) ∧
    (∀ p : Vector2D, compute_shockwave_impulse p p = ⟨0, 0⟩) ∧
    (∀ p : Vector2D,
      collision_unit_normal p p = ⟨1, 0⟩ ∧ effective_dist p p = 1) := by
  have hzero : ∀ p : Vector2D, (p - p).magnitude = 0 := fun p => by
    rw [Vector2D.magnitude_eq_zero_iff]
    ext <;> simp
  refine ⟨fun v => ?_, fun v s hs => ?_, fun v h => ?_, fun p => ?_,
    fun p => ⟨?_, ?_⟩⟩
  · unfold Vector2D.truediv
    rw [if_pos rfl]
  · unfold Vector2D.truediv
    rw [if_neg hs]
  · simp only [Vector2D.normalized]
    rw [if_pos h]
  · simp only [compute_shockwave_impulse]
    rw [if_neg (by rw [hzero p]; norm_num [SHOCKWAVE_RADIUS])]
    simp only [Vector2D.normalized]
    rw [if_pos (hzero p)]
    ext <;> simp
  · simp only [collision_unit_normal]
    rw [if_pos (hzero p)]
    simp only [Vector2D.normalized]
    rw [if_neg (by rw [Vector2D.magnitude_one_zero]; norm_num)]
    rw [Vector2D.magnitude_one_zero]
    ext <;> norm_num
  · simp only [effective_dist]
    rw [if_pos (hzero p)]
    norm_num

/-- Witness for C7: concrete division results and degenerate fallbacks. -/
theorem truediv_only_failure_witness :
    (Vector2D.mk 6 4).truediv 0 = none ∧
    (Vector2D.mk 6 4).truediv 2 = some ⟨6 / 2, 4 / 2⟩ ∧
    (Vector2D.mk 0 0).normalized = ⟨0, 0⟩ ∧
    compute_shockwave_impulse ⟨5, 7⟩ ⟨5, 7⟩ = ⟨0, 0⟩ :=
  ⟨truediv_only_failure.1 ⟨6, 4⟩,
   truediv_only_failure.2.1 ⟨6, 4⟩ 2 (by norm_num),
   truediv_only_failure.2.2.1 ⟨0, 0⟩ ((Vector2D.magnitude_eq_zero_iff _).mpr rfl),
   truediv_only_failure.2.2.2.1 ⟨5, 7⟩⟩

/-- C8: when the bodies are already separating along the collision normal
(`vel_along_normal > 0`), `resolve_collision` returns the input velocities
unchanged, and still applies the symmetric position correction whenever the
bodies overlap. -/
theorem resolve_collision_separating_noop (pos_a vel_a : Vector2D)
    (mass_a radius_a : ℝ) (pos_b vel_b : Vector2D) (mass_b radius_b : ℝ)
    (h : vel_along_normal pos_a pos_b vel_a vel_b > 0) :
    (resolve_collision pos_a vel_a mass_a radius_a pos_b vel_b mass_b radius_b).1
      = vel_a ∧
    (resolve_collision pos_a vel_a mass_a radius_a pos_b vel_b mass_b radius_b).2.1
      = vel_b ∧
    ((radius_a + radius_b) - effective_dist pos_a pos_b > 0 →
      (resolve_collision pos_a vel_a mass_a radius_a pos_b vel_b mass_b radius_b).2.2.1
        = pos_a + collision_unit_normal pos_a pos_b *
            (((radius_a + radius_b) - effective_dist pos_a pos_b) / 2 + 0.5) ∧
      (resolve_collision pos_a vel_a mass_a radius_a pos_b vel_b mass_b radius_b).2.2.2
        = pos_b - collision_unit_normal pos_a pos_b *
            (((radius_a + radius_b) - effective_dist pos_a pos_b) / 2 + 0.5)) := by
  unfold vel_along_normal at h
  simp only [resolve_collision]
  rw [if_pos h]
  split_ifs with h2
  · exact ⟨rfl, rfl, fun _ => ⟨rfl, rfl⟩⟩
  · exact ⟨rfl, rfl, fun hc => absurd hc h2⟩

/-- Witness for C8: two separating unit circles at centre distance 1. -/
theorem resolve_collision_separating_noop_witness :
    vel_along_normal ⟨1, 0⟩ ⟨0, 0⟩ ⟨5, 0⟩ ⟨0, 0⟩ > 0 ∧
    (resolve_collision ⟨1, 0⟩ ⟨5, 0⟩ 1 1 ⟨0, 0⟩ ⟨0, 0⟩ 1 1).1 = ⟨5, 0⟩ ∧
    (resolve_collision ⟨1, 0⟩ ⟨5, 0⟩ 1 1 ⟨0, 0⟩ ⟨0, 0⟩ 1 1).2.1 = ⟨0, 0⟩ := by
  have hm : (Vector2D.mk 1 0 - ⟨0, 0⟩).magnitude = 1 := by
    have : Vector2D.mk 1 0 - ⟨0, 0⟩ = ⟨1, 0⟩ := by ext <;> norm_num
    rw [this]
    exact Vector2D.magnitude_eval 1 0 1 (by norm_num) (by norm_num)
  have hvan : vel_along_normal ⟨1, 0⟩ ⟨0, 0⟩ ⟨5, 0⟩ ⟨0, 0⟩ > 0 := by
    unfold vel_along_normal Vector2D.dot
    rw [collision_unit_normal_eval _ _ 1 hm (by norm_num)]
    norm_num
  have hres := resolve_collision_separating_noop ⟨1, 0⟩ ⟨5, 0⟩ 1 1 ⟨0, 0⟩ ⟨0, 0⟩
    1 1 hvan
  exact ⟨hvan, hres.1, hres.2.1⟩

/-- C1: with strictly positive masses and an approaching relative velocity
(`vel_along_normal ≤ 0`), the elastic impulse branch of `resolve_collision`
exactly conserves total momentum and total kinetic energy, and leaves both
tangential components of both velocities (along the perpendicular of the collision
normal) unchanged. -/
theorem resolve_collision_conserves (pos_a vel_a : Vector2D)
    (mass_a radius_a : ℝ) (pos_b vel_b : Vector2D) (mass_b radius_b : ℝ)
    (hma : 0 < mass_a) (hmb : 0 < mass_b)
    (h : vel_along_normal pos_a pos_b vel_a vel_b ≤ 0) :
    (resolve_collision pos_a vel_a mass_a radius_a pos_b vel_b mass_b radius_b).1 * mass_a
        + (resolve_collision pos_a vel_a mass_a radius_a pos_b vel_b mass_b radius_b).2.1 * mass_b
      = vel_a * mass_a + vel_b * mass_b ∧
    (resolve_collision pos_a vel_a mass_a radius_a pos_b vel_b mass_b radius_b).1.magnitude_sq * mass_a
        + (resolve_collision pos_a vel_a mass_a radius_a pos_b vel_b mass_b radius_b).2.1.magnitude_sq * mass_b
      = vel_a.magnitude_sq * mass_a + vel_b.magnitude_sq * mass_b ∧
    (resolve_collision pos_a vel_a mass_a radius_a pos_b vel_b mass_b radius_b).1.dot
        ⟨-(collision_unit_normal pos_a pos_b).y, (collision_unit_normal pos_a pos_b).x⟩
      = vel_a.dot
        ⟨-(collision_unit_normal pos_a pos_b).y, (collision_unit_normal pos_a pos_b).x⟩ ∧
    (resolve_collision pos_a vel_a mass_a radius_a pos_b vel_b mass_b radius_b).2.1.dot
        ⟨-(collision_unit_normal pos_a pos_b).y, (collision_unit_normal pos_a pos_b).x⟩
      = vel_b.dot
        ⟨-(collision_unit_normal pos_a pos_b).y, (collision_unit_normal pos_a pos_b).x⟩ := by
  have hunit : (collision_unit_normal pos_a pos_b).x * (collision_unit_normal pos_a pos_b).x
      + (collision_unit_normal pos_a pos_b).y * (collision_unit_normal pos_a pos_b).y = 1 := by
    have hu := collision_unit_normal_sq pos_a pos_b
    unfold Vector2D.magnitude_sq at hu
    exact hu
  have h0 : mass_a + mass_b ≠ 0 := by positivity
  have himp2 : 2 * ((vel_a.x - vel_b.x) * (collision_unit_normal pos_a pos_b).x
        + (vel_a.y - vel_b.y) * (collision_unit_normal pos_a pos_b).y)
        / (mass_a + mass_b) * (mass_a + mass_b)
      = 2 * ((vel_a.x - vel_b.x) * (collision_unit_normal pos_a pos_b).x
        + (vel_a.y - vel_b.y) * (collision_unit_normal pos_a pos_b).y) :=
    div_mul_cancel₀ _ h0
  unfold vel_along_normal at h
  have hne : ¬ ((vel_a - vel_b).dot (collision_unit_normal pos_a pos_b) > 0) :=
    not_lt.mpr h
  simp only [resolve_collision]
  rw [if_neg hne]
  split_ifs with hover <;>
    refine ⟨?_, ?_, ?_, ?_⟩ <;>
    simp only [Vector2D.dot, Vector2D.sub_def, Vector2D.add_def, Vector2D.mul_def,
      Vector2D.magnitude_sq]
  · ext <;> dsimp <;> ring
  · linear_combination
      ((2 * ((vel_a.x - vel_b.x) * (collision_unit_normal pos_a pos_b).x
          + (vel_a.y - vel_b.y) * (collision_unit_normal pos_a pos_b).y)
          / (mass_a + mass_b)) ^ 2 * mass_a * mass_b * (mass_a + mass_b)) * hunit
      + ((2 * ((vel_a.x - vel_b.x) * (collision_unit_normal pos_a pos_b).x
          + (vel_a.y - vel_b.y) * (collision_unit_normal pos_a pos_b).y)
          / (mass_a + mass_b)) * mass_a * mass_b) * himp2
  · ring
  · ring
  · ext <;> dsimp <;> ring
  · linear_combination
      ((2 * ((vel_a.x - vel_b.x) * (collision_unit_normal pos_a pos_b).x
          + (vel_a.y - vel_b.y) * (collision_unit_normal pos_a pos_b).y)
          / (mass_a + mass_b)) ^ 2 * mass_a * mass_b * (mass_a + mass_b)) * hunit
      + ((2 * ((vel_a.x - vel_b.x) * (collision_unit_normal pos_a pos_b).x
          + (vel_a.y - vel_b.y) * (collision_unit_normal pos_a pos_b).y)
          / (mass_a + mass_b)) * mass_a * mass_b) * himp2
  · ring
  · ring

/-- Witness for C1: a head-on collision along the x-axis with unit masses. -/
theorem resolve_collision_conserves_witness :
    (0:ℝ) < 1 ∧ vel_along_normal ⟨2, 0⟩ ⟨0, 0⟩ ⟨-3, 0⟩ ⟨1, 0⟩ ≤ 0 ∧
    (resolve_collision ⟨2, 0⟩ ⟨-3, 0⟩ 1 1 ⟨0, 0⟩ ⟨1, 0⟩ 1 1).1 * (1:ℝ)
        + (resolve_collision ⟨2, 0⟩ ⟨-3, 0⟩ 1 1 ⟨0, 0⟩ ⟨1, 0⟩ 1 1).2.1 * (1:ℝ)
      = Vector2D.mk (-3) 0 * (1:ℝ) + Vector2D.mk 1 0 * (1:ℝ) ∧
    (resolve_collision ⟨2, 0⟩ ⟨-3, 0⟩ 1 1 ⟨0, 0⟩ ⟨1, 0⟩ 1 1).1.magnitude_sq * (1:ℝ)
        + (resolve_collision ⟨2, 0⟩ ⟨-3, 0⟩ 1 1 ⟨0, 0⟩ ⟨1, 0⟩ 1 1).2.1.magnitude_sq * (1:ℝ)
      = (Vector2D.mk (-3) 0).magnitude_sq * (1:ℝ) + (Vector2D.mk 1 0).magnitude_sq * (1:ℝ) := by
  have hm2 : (Vector2D.mk 2 0 - ⟨0, 0⟩).magnitude = 2 := by
    have he : Vector2D.mk 2 0 - ⟨0, 0⟩ = ⟨2, 0⟩ := by ext <;> norm_num
    rw [he]
    exact Vector2D.magnitude_eval 2 0 2 (by norm_num) (by norm_num)
  have hvan : vel_along_normal ⟨2, 0⟩ ⟨0, 0⟩ ⟨-3, 0⟩ ⟨1, 0⟩ ≤ 0 := by
    unfold vel_along_normal Vector2D.dot
    rw [collision_unit_normal_eval _ _ 2 hm2 (by norm_num)]
    norm_num
  have hres := resolve_collision_conserves ⟨2, 0⟩ ⟨-3, 0⟩ 1 1 ⟨0, 0⟩ ⟨1, 0⟩ 1 1
    one_pos one_pos hvan
  exact ⟨one_pos, hvan, hres.1, hres.2.1⟩

/-- C2 (amended): when the input centres strictly overlap, `resolve_collision`
pushes distinct centres strictly apart (final distance strictly greater than
the radius sum); with exactly coincident centres and radius sum above the
substituted distance `1.0`, the returned centres end up at distance exactly
equal to the radius sum (strictly positive, but touching). -/
theorem resolve_collision_separates (pos_a vel_a : Vector2D)
    (mass_a radius_a : ℝ) (pos_b vel_b : Vector2D) (mass_b radius_b : ℝ)
    (hover : pos_a.distance_to pos_b < radius_a + radius_b) :
    (pos_a ≠ pos_b →
      Vector2D.distance_to
          (resolve_collision pos_a vel_a mass_a radius_a pos_b vel_b mass_b radius_b).2.2.1
          (resolve_collision pos_a vel_a mass_a radius_a pos_b vel_b mass_b radius_b).2.2.2
        > radius_a + radius_b) ∧
    (pos_a = pos_b → 1 < radius_a + radius_b →
      Vector2D.distance_to
          (resolve_collision pos_a vel_a mass_a radius_a pos_b vel_b mass_b radius_b).2.2.1
          (resolve_collision pos_a vel_a mass_a radius_a pos_b vel_b mass_b radius_b).2.2.2
        = radius_a + radius_b) := by
  have h05 : (0.5 : ℝ) = 1 / 2 := by norm_num
  constructor
  · intro hne
    have hm0 : (pos_a - pos_b).magnitude ≠ 0 := by
      rw [Ne, Vector2D.sub_eq_zero_iff]
      exact hne
    have hmpos : 0 < (pos_a - pos_b).magnitude :=
      lt_of_le_of_ne (Vector2D.magnitude_nonneg _) (Ne.symm hm0)
    have hover1 : (pos_a - pos_b).magnitude < radius_a + radius_b := hover
    have hop : radius_a + radius_b - (pos_a - pos_b).magnitude > 0 := by linarith
    simp only [resolve_collision]
    rw [collision_unit_normal_of_ne pos_a pos_b hm0,
      effective_dist_eval pos_a pos_b _ rfl hm0]
    split_ifs with h1 <;>
    · dsimp only
      rw [distance_after_correction pos_a pos_b _ hm0,
        show (pos_a - pos_b).magnitude
            + 2 * ((radius_a + radius_b - (pos_a - pos_b).magnitude) / 2 + 0.5)
            = radius_a + radius_b + 1 by rw [h05]; ring,
        abs_of_pos (by linarith)]
      linarith
  · intro heq hR
    subst heq
    have hop : radius_a + radius_b - (1:ℝ) > 0 := by linarith
    simp only [resolve_collision]
    rw [collision_unit_normal_coincident, effective_dist_coincident]
    split_ifs with h1 <;>
    · dsimp only
      rw [Vector2D.distance_to,
        show (pos_a + Vector2D.mk 1 0 * ((radius_a + radius_b - 1) / 2 + 0.5))
            - (pos_a - Vector2D.mk 1 0 * ((radius_a + radius_b - 1) / 2 + 0.5))
            = ⟨radius_a + radius_b, 0⟩ by ext <;> dsimp <;> rw [h05] <;> ring]
      exact Vector2D.magnitude_eval _ _ _ (by ring) (by linarith)

/-- Counterexample to C2 as stated: with exactly coincident centres and radii
12 and 12, the input centres are strictly overlapping, yet the returned
centres end up at distance exactly 24 = radius sum, which is NOT strictly
greater than the radius sum. -/
theorem resolve_coincident_exactly_touching :
    Vector2D.distance_to (Vector2D.mk 0 0) ⟨0, 0⟩ < 12 + 12 ∧
    Vector2D.distance_to
        (resolve_collision ⟨0, 0⟩ ⟨0, 0⟩ 1 12 ⟨0, 0⟩ ⟨0, 0⟩ 1 12).2.2.1
        (resolve_collision ⟨0, 0⟩ ⟨0, 0⟩ 1 12 ⟨0, 0⟩ ⟨0, 0⟩ 1 12).2.2.2
      = 12 + 12 ∧
    ¬ (Vector2D.distance_to
        (resolve_collision ⟨0, 0⟩ ⟨0, 0⟩ 1 12 ⟨0, 0⟩ ⟨0, 0⟩ 1 12).2.2.1
        (resolve_collision ⟨0, 0⟩ ⟨0, 0⟩ 1 12 ⟨0, 0⟩ ⟨0, 0⟩ 1 12).2.2.2
      > 12 + 12) := by
  have h05 : (0.5 : ℝ) = 1 / 2 := by norm_num
  have hzero : Vector2D.distance_to (Vector2D.mk 0 0) ⟨0, 0⟩ = 0 := by
    rw [Vector2D.distance_to, Vector2D.sub_self_magnitude]
  have hvan : ¬ ((Vector2D.mk 0 0 - ⟨0, 0⟩).dot (Vector2D.mk 1 0) > 0) := by
    norm_num [Vector2D.dot]
  have hres1 : (resolve_collision ⟨0, 0⟩ ⟨0, 0⟩ 1 12 ⟨0, 0⟩ ⟨0, 0⟩ 1 12).2.2.1
      = ⟨12, 0⟩ := by
    simp only [resolve_collision]
    rw [collision_unit_normal_coincident, effective_dist_coincident,
      if_neg hvan, if_pos (by norm_num : (12:ℝ) + 12 - 1 > 0)]
    ext <;> dsimp <;> rw [h05] <;> norm_num
  have hres2 : (resolve_collision ⟨0, 0⟩ ⟨0, 0⟩ 1 12 ⟨0, 0⟩ ⟨0, 0⟩ 1 12).2.2.2
      = ⟨-12, 0⟩ := by
    simp only [resolve_collision]
    rw [collision_unit_normal_coincident, effective_dist_coincident,
      if_neg hvan, if_pos (by norm_num : (12:ℝ) + 12 - 1 > 0)]
    ext <;> dsimp <;> rw [h05] <;> norm_num
  have hdist : Vector2D.distance_to (Vector2D.mk 12 0) ⟨-12, 0⟩ = 24 := by
    rw [Vector2D.distance_to,
      show Vector2D.mk 12 0 - ⟨-12, 0⟩ = ⟨24, 0⟩ by ext <;> dsimp <;> norm_num]
    exact Vector2D.magnitude_eval 24 0 24 (by norm_num) (by norm_num)
  refine ⟨by rw [hzero]; norm_num, ?_, ?_⟩
  · rw [hres1, hres2, hdist]
    norm_num
  · rw [hres1, hres2, hdist]
    norm_num

/-- Witness for C2 (amended): distinct overlapping unit circles end strictly
apart; coincident circles of radii 12 end exactly 24 apart. -/
theorem resolve_collision_separates_witness :
    Vector2D.distance_to ⟨1, 0⟩ ⟨0, 0⟩ < 1 + 1 ∧
    Vector2D.distance_to
        (resolve_collision ⟨1, 0⟩ ⟨0, 0⟩ 1 1 ⟨0, 0⟩ ⟨0, 0⟩ 1 1).2.2.1
        (resolve_collision ⟨1, 0⟩ ⟨0, 0⟩ 1 1 ⟨0, 0⟩ ⟨0, 0⟩ 1 1).2.2.2 > 1 + 1 ∧
    Vector2D.distance_to
        (resolve_collision ⟨0, 0⟩ ⟨5, 5⟩ 2 12 ⟨0, 0⟩ ⟨0, 0⟩ 3 12).2.2.1
        (resolve_collision ⟨0, 0⟩ ⟨5, 5⟩ 2 12 ⟨0, 0⟩ ⟨0, 0⟩ 3 12).2.2.2
      = 12 + 12 := by
  have hm1 : (Vector2D.mk 1 0 - ⟨0, 0⟩).magnitude = 1 := by
    rw [show Vector2D.mk 1 0 - ⟨0, 0⟩ = ⟨1, 0⟩ by ext <;> dsimp <;> norm_num]
    exact Vector2D.magnitude_eval 1 0 1 (by norm_num) (by norm_num)
  have hover1 : Vector2D.distance_to ⟨1, 0⟩ ⟨0, 0⟩ < 1 + 1 := by
    rw [Vector2D.distance_to, hm1]
    norm_num
  have hne1 : Vector2D.mk 1 0 ≠ ⟨0, 0⟩ := by
    intro h
    have hx := congrArg Vector2D.x h
    dsimp at hx
    norm_num at hx
  have hover2 : Vector2D.distance_to (Vector2D.mk 0 0) ⟨0, 0⟩ < 12 + 12 := by
    rw [Vector2D.distance_to, Vector2D.sub_self_magnitude]
    norm_num
  exact ⟨hover1,
    (resolve_collision_separates ⟨1, 0⟩ ⟨0, 0⟩ 1 1 ⟨0, 0⟩ ⟨0, 0⟩ 1 1 hover1).1 hne1,
    (resolve_collision_separates ⟨0, 0⟩ ⟨5, 5⟩ 2 12 ⟨0, 0⟩ ⟨0, 0⟩ 3 12 hover2).2
      rfl (by norm_num)⟩

/-- C4: `compute_shockwave_impulse` is the zero vector beyond
`SHOCKWAVE_RADIUS` and exactly at the epicentre, follows the
inverse-distance formula inside the radius, and its magnitude strictly
decreases with distance for distances in `(1, SHOCKWAVE_RADIUS]`. -/
theorem compute_shockwave_impulse_falloff :
    (∀ p o : Vector2D, SHOCKWAVE_RADIUS < (p - o).magnitude →
      compute_shockwave_impulse p o = ⟨0, 0⟩) ∧
    (∀ p o : Vector2D, (p - o).magnitude = 0 →
      compute_shockwave_impulse p o = ⟨0, 0⟩) ∧
    (∀ p o : Vector2D, (p - o).magnitude ≤ SHOCKWAVE_RADIUS →
      compute_shockwave_impulse p o
        = (p - o).normalized
            * (SHOCKWAVE_STRENGTH / max (p - o).magnitude 1.0)) ∧
    (∀ p1 p2 o : Vector2D, 1 < (p1 - o).magnitude →
      (p1 - o).magnitude < (p2 - o).magnitude →
      (p2 - o).magnitude ≤ SHOCKWAVE_RADIUS →
      (compute_shockwave_impulse p2 o).magnitude
        < (compute_shockwave_impulse p1 o).magnitude) := by
  refine ⟨fun p o h => ?_, fun p o h => ?_, fun p o h => ?_,
    fun p1 p2 o h1 h12 h2SR => ?_⟩
  · simp only [compute_shockwave_impulse]
    rw [if_pos h]
  · simp only [compute_shockwave_impulse]
    rw [if_neg (by rw [h]; unfold SHOCKWAVE_RADIUS; norm_num)]
    simp only [Vector2D.normalized]
    rw [if_pos h]
    ext <;> dsimp <;> ring
  · simp only [compute_shockwave_impulse]
    rw [if_neg (not_lt.mpr h)]
  · have hm1pos : (0:ℝ) < (p1 - o).magnitude := lt_trans one_pos h1
    have hm2pos : (0:ℝ) < (p2 - o).magnitude := lt_trans hm1pos h12
    have h800 : (0:ℝ) < SHOCKWAVE_STRENGTH := by unfold SHOCKWAVE_STRENGTH; norm_num
    have h10 : (1.0 : ℝ) = 1 := by norm_num
    have hmax1 : max (p1 - o).magnitude 1.0 = (p1 - o).magnitude := by
      apply max_eq_left
      rw [h10]
      linarith
    have hmax2 : max (p2 - o).magnitude 1.0 = (p2 - o).magnitude := by
      apply max_eq_left
      rw [h10]
      linarith
    simp only [compute_shockwave_impulse]
    rw [if_neg (not_lt.mpr h2SR),
      if_neg (not_lt.mpr (le_trans (le_of_lt h12) h2SR)),
      hmax1, hmax2, Vector2D.magnitude_mul, Vector2D.magnitude_mul,
      Vector2D.normalized_magnitude _ (ne_of_gt hm1pos),
      Vector2D.normalized_magnitude _ (ne_of_gt hm2pos), one_mul, one_mul,
      abs_of_pos (div_pos h800 hm1pos), abs_of_pos (div_pos h800 hm2pos),
      div_lt_div_iff₀ hm2pos hm1pos]
    exact (mul_lt_mul_left h800).mpr h12

/-- Witness for C4: concrete points at distances 500 (outside), 0
(epicentre), and 2 < 4 (falloff). -/
theorem compute_shockwave_impulse_falloff_witness :
    SHOCKWAVE_RADIUS < (Vector2D.mk 500 0 - ⟨0, 0⟩).magnitude ∧
    compute_shockwave_impulse ⟨500, 0⟩ ⟨0, 0⟩ = ⟨0, 0⟩ ∧
    compute_shockwave_impulse ⟨9, 9⟩ ⟨9, 9⟩ = ⟨0, 0⟩ ∧
    (compute_shockwave_impulse ⟨4, 0⟩ ⟨0, 0⟩).magnitude
      < (compute_shockwave_impulse ⟨2, 0⟩ ⟨0, 0⟩).magnitude := by
  have hm500 : (Vector2D.mk 500 0 - ⟨0, 0⟩).magnitude = 500 := by
    rw [show Vector2D.mk 500 0 - ⟨0, 0⟩ = ⟨500, 0⟩ by ext <;> dsimp <;> norm_num]
    exact Vector2D.magnitude_eval 500 0 500 (by norm_num) (by norm_num)
  have h1 : SHOCKWAVE_RADIUS < (Vector2D.mk 500 0 - ⟨0, 0⟩).magnitude := by
    rw [hm500]
    unfold SHOCKWAVE_RADIUS
    norm_num
  have hm0 : (Vector2D.mk 9 9 - ⟨9, 9⟩).magnitude = 0 :=
    Vector2D.sub_self_magnitude _
  have hm2 : (Vector2D.mk 2 0 - ⟨0, 0⟩).magnitude = 2 := by
    rw [show Vector2D.mk 2 0 - ⟨0, 0⟩ = ⟨2, 0⟩ by ext <;> dsimp <;> norm_num]
    exact Vector2D.magnitude_eval 2 0 2 (by norm_num) (by norm_num)
  have hm4 : (Vector2D.mk 4 0 - ⟨0, 0⟩).magnitude = 4 := by
    rw [show Vector2D.mk 4 0 - ⟨0, 0⟩ = ⟨4, 0⟩ by ext <;> dsimp <;> norm_num]
    exact Vector2D.magnitude_eval 4 0 4 (by norm_num) (by norm_num)
  exact ⟨h1, compute_shockwave_impulse_falloff.1 _ _ h1,
    compute_shockwave_impulse_falloff.2.1 _ _ hm0,
    compute_shockwave_impulse_falloff.2.2.2 ⟨2, 0⟩ ⟨4, 0⟩ ⟨0, 0⟩
      (by rw [hm2]; norm_num) (by rw [hm2, hm4]; norm_num)
      (by rw [hm4]; unfold SHOCKWAVE_RADIUS; norm_num)⟩

/-- C5: `spawn_ball` rejects — returning no ball and leaving the state
unchanged — when either the conservative average-radius pre-check or the
actual-radius re-check finds an overlap with an existing ball; when both
checks pass, exactly one new ball is appended and returned. -/
theorem spawn_ball_spec (sim : Simulation) (position : Vector2D)
    (color : Color) (velocity : Option Vector2D) (radius angle speed : ℝ) :
    ((∃ b ∈ sim.balls, position.distance_to b.position
        < (MIN_RADIUS + MAX_RADIUS) / 2 + b.radius) →
      sim.spawn_ball position color velocity radius angle speed = (none, sim)) ∧
    (¬ (∃ b ∈ sim.balls, position.distance_to b.position
        < (MIN_RADIUS + MAX_RADIUS) / 2 + b.radius) →
      (∃ b ∈ sim.balls, position.distance_to b.position
        < (Ball.create_random position color velocity radius angle speed).radius
          + b.radius) →
      sim.spawn_ball position color velocity radius angle speed = (none, sim)) ∧
    (¬ (∃ b ∈ sim.balls, position.distance_to b.position
        < (MIN_RADIUS + MAX_RADIUS) / 2 + b.radius) →
      ¬ (∃ b ∈ sim.balls, position.distance_to b.position
        < (Ball.create_random position color velocity radius angle speed).radius
          + b.radius) →
      sim.spawn_ball position color velocity radius angle speed
        = (some (Ball.create_random position color velocity radius angle speed),
            { sim with
              balls := sim.balls
                ++ [Ball.create_random position color velocity radius angle speed]
              initial_balls := sim.initial_balls
                ++ [((Ball.create_random position color velocity radius angle speed).position,
                    (Ball.create_random position color velocity radius angle speed).velocity,
                    (Ball.create_random position color velocity radius angle speed).radius,
                    (Ball.create_random position color velocity radius angle speed).color)] }) ∧
      (sim.spawn_ball position color velocity radius angle speed).2.balls.length
        = sim.balls.length + 1) := by
  refine ⟨fun h1 => ?_, fun h1 h2 => ?_, fun h1 h2 => ⟨?_, ?_⟩⟩
  · simp only [Simulation.spawn_ball]
    rw [if_pos h1]
  · simp only [Simulation.spawn_ball]
    rw [if_neg h1, if_pos h2]
  · simp only [Simulation.spawn_ball]
    rw [if_neg h1, if_neg h2]
  · simp only [Simulation.spawn_ball]
    rw [if_neg h1, if_neg h2]
    simp

/-- A concrete spawned ball used to witness C5. -/
def demoBall : Ball := Ball.create_random ⟨100, 100⟩ (1, 2, 3) (some ⟨1, 0⟩) 15 0 0

/-- Witness for C5: spawning into an empty simulation succeeds and appends
exactly one ball. -/
theorem spawn_ball_spec_witness :
    Simulation.init.spawn_ball ⟨100, 100⟩ (1, 2, 3) (some ⟨1, 0⟩) 15 0 0
      = (some demoBall,
          { Simulation.init with
            balls := Simulation.init.balls ++ [demoBall]
            initial_balls := Simulation.init.initial_balls
              ++ [(demoBall.position, demoBall.velocity, demoBall.radius,
                  demoBall.color)] }) ∧
    (Simulation.init.spawn_ball ⟨100, 100⟩ (1, 2, 3) (some ⟨1, 0⟩) 15 0 0).2.balls.length
      = Simulation.init.balls.length + 1 := by
  have h1 : ¬ (∃ b ∈ Simulation.init.balls,
      Vector2D.distance_to ⟨100, 100⟩ b.position
        < (MIN_RADIUS + MAX_RADIUS) / 2 + b.radius) := by
    simp [Simulation.init]
  have h2 : ¬ (∃ b ∈ Simulation.init.balls,
      Vector2D.distance_to ⟨100, 100⟩ b.position
        < (Ball.create_random ⟨100, 100⟩ (1, 2, 3) (some ⟨1, 0⟩) 15 0 0).radius
          + b.radius) := by
    simp [Simulation.init]
  have hs := (spawn_ball_spec Simulation.init ⟨100, 100⟩ (1, 2, 3)
    (some ⟨1, 0⟩) 15 0 0).2.2 h1 h2
  exact hs

/-- The per-ball loop leaves the glow timer unchanged or sets it to the
full glow duration. -/
theorem phase1_timer_cases (g : Bool) (t : ℝ) (balls : List Ball) :
    (Simulation.phase1 g t balls).2 = t ∨
    (Simulation.phase1 g t balls).2 = WALL_GLOW_DURATION := by
  induction balls generalizing t with
  | nil => exact Or.inl rfl
  | cons b rest ih =>
    simp only [Simulation.phase1]
    by_cases hb : (Simulation.stepBall g b).2 = true
    · rw [hb, if_pos rfl]
      rcases ih WALL_GLOW_DURATION with h | h
      · exact Or.inr h
      · exact Or.inr h
    · rw [if_neg hb]
      exact ih t

/-- If no ball reports a left-wall hit, the per-ball loop leaves the glow
timer unchanged. -/
theorem phase1_timer_no_hit (g : Bool) (t : ℝ) (balls : List Ball)
    (h : ∀ b ∈ balls, (Simulation.stepBall g b).2 = false) :
    (Simulation.phase1 g t balls).2 = t := by
  induction balls generalizing t with
  | nil => rfl
  | cons b rest ih =>
    have hb : (Simulation.stepBall g b).2 = false := h b (List.mem_cons_self b rest)
    simp only [Simulation.phase1, hb]
    rw [if_neg (by simp)]
    exact ih t fun x hx => h x (List.mem_cons_of_mem _ hx)

/-- If some ball reports a left-wall hit, the per-ball loop ends with the
glow timer at the full glow duration. -/
theorem phase1_timer_hit (g : Bool) (t : ℝ) (balls : List Ball)
    (h : ∃ b ∈ balls, (Simulation.stepBall g b).2 = true) :
    (Simulation.phase1 g t balls).2 = WALL_GLOW_DURATION := by
  induction balls generalizing t with
  | nil => simp at h
  | cons b rest ih =>
    simp only [Simulation.phase1]
    by_cases hb : (Simulation.stepBall g b).2 = true
    · rw [hb, if_pos rfl]
      rcases phase1_timer_cases g WALL_GLOW_DURATION rest with hh | hh
      · exact hh
      · exact hh
    · rw [if_neg hb]
      apply ih
      rcases h with ⟨x, hx, hxt⟩
      rcases List.mem_cons.mp hx with rfl | hxr
      · exact absurd hxt hb
      · exact ⟨x, hxr, hxt⟩

/-- In every reachable state the glow timer is a natural number (it starts
at 0, is only ever set to the integer glow duration, and decrements by 1
while positive). -/
theorem reachable_timer_nat (s : Simulation) (h : Reachable s) :
    ∃ n : ℕ, s.wall_glow_timer = n := by
  induction h with
  | init => exact ⟨0, by norm_num [Simulation.init]⟩
  | spawn s position color velocity radius angle speed _ ih =>
    rcases ih with ⟨n, hn⟩
    refine ⟨n, ?_⟩
    simp only [Simulation.spawn_ball]
    split_ifs <;> exact hn
  | update s _ ih =>
    rcases ih with ⟨n, hn⟩
    simp only [Simulation.update]
    split_ifs with hp hpos
    · exact ⟨n, hn⟩
    · rcases phase1_timer_cases s.gravity_on s.wall_glow_timer s.balls with h1 | h1
      · rw [h1] at hpos ⊢
        rw [hn] at hpos ⊢
        cases n with
        | zero => exact absurd hpos (by norm_num)
        | succ k =>
          refine ⟨k, ?_⟩
          show (((k + 1 : ℕ) : ℝ)) - 1 = (k : ℝ)
          push_cast
          ring
      · rw [h1]
        refine ⟨29, ?_⟩
        show WALL_GLOW_DURATION - 1 = ((29 : ℕ) : ℝ)
        unfold WALL_GLOW_DURATION
        norm_num
    · rcases phase1_timer_cases s.gravity_on s.wall_glow_timer s.balls with h1 | h1
      · rw [h1, hn]
        exact ⟨n, rfl⟩
      · rw [h1] at hpos
        exact absurd (by unfold WALL_GLOW_DURATION; norm_num) hpos
  | remove s ball _ ih => exact ih
  | reset s _ _ => exact ⟨0, by norm_num [Simulation.reset]⟩
  | shockwave s origin _ ih => exact ih
  | toggle_gravity s _ ih => exact ih
  | toggle_pause s _ ih => exact ih

/-- C9: in every state reachable through the public operations the glow
timer is non-negative; one unpaused update with no left-wall hit decrements
a positive timer by exactly 1 and leaves a zero timer at 0; an unpaused
update in which some ball hits the left wall ends the frame with the timer
at the full glow duration minus the end-of-frame decrement. -/
theorem wall_glow_timer_behavior :
    (∀ s : Simulation, Reachable s → 0 ≤ s.wall_glow_timer) ∧
    (∀ s : Simulation, s.paused = false →
      (∀ b ∈ s.balls, (Simulation.stepBall s.gravity_on b).2 = false) →
      (0 < s.wall_glow_timer →
        s.update.wall_glow_timer = s.wall_glow_timer - 1) ∧
      (s.wall_glow_timer = 0 → s.update.wall_glow_timer = 0)) ∧
    (∀ s : Simulation, s.paused = false →
      (∃ b ∈ s.balls, (Simulation.stepBall s.gravity_on b).2 = true) →
      s.update.wall_glow_timer = WALL_GLOW_DURATION - 1) := by
  refine ⟨fun s hs => ?_, fun s hp hnone => ⟨fun hpos => ?_, fun h0 => ?_⟩,
    fun s hp hsome => ?_⟩
  · rcases reachable_timer_nat s hs with ⟨n, hn⟩
    rw [hn]
    exact Nat.cast_nonneg n
  · simp only [Simulation.update]
    rw [if_neg (by rw [hp]; simp),
      phase1_timer_no_hit s.gravity_on s.wall_glow_timer s.balls hnone,
      if_pos hpos]
  · simp only [Simulation.update]
    rw [if_neg (by rw [hp]; simp),
      phase1_timer_no_hit s.gravity_on s.wall_glow_timer s.balls hnone, h0]
    norm_num
  · simp only [Simulation.update]
    rw [if_neg (by rw [hp]; simp),
      phase1_timer_hit s.gravity_on s.wall_glow_timer s.balls hsome,
      if_pos (by unfold WALL_GLOW_DURATION; norm_num)]

/-- A concrete unpaused, empty simulation with a positive glow timer, used
to witness C9. -/
def glowDemo : Simulation :=
  { balls := []
    gravity_on := false
    paused := false
    wall_glow_timer := 5
    shockwave_effects := []
    initial_balls := [] }

/-- A ball guaranteed to bounce off the left wall on its next step. -/
def hitBall : Ball := Ball.init ⟨5, 100⟩ ⟨-1, 0⟩ 12 (0, 0, 0)

/-- A concrete unpaused simulation whose single ball hits the left wall on
the next update, used to witness C9. -/
def hitDemo : Simulation :=
  { balls := [hitBall]
    gravity_on := false
    paused := false
    wall_glow_timer := 0
    shockwave_effects := []
    initial_balls := [] }

/-- Stepping `hitBall` reports a left-wall hit. -/
theorem stepBall_hitBall_flag : (Simulation.stepBall false hitBall).2 = true := by
  have hf : (0:ℝ) < SURFACE_FRICTION ^ Real.sqrt hitBall.mass :=
    Real.rpow_pos_of_pos (by unfold SURFACE_FRICTION; norm_num) _
  simp only [Simulation.stepBall, Ball.update_position, Ball.handle_wall_bounce,
    apply_surface_friction, Vector2D.mul_def, Vector2D.add_def, Bool.false_eq_true,
    if_false]
  rw [if_pos ?hcond]
  case hcond =>
    constructor
    · show hitBall.position.x + hitBall.velocity.x
          * (SURFACE_FRICTION ^ Real.sqrt hitBall.mass) - hitBall.radius ≤ 0
      have h5 : hitBall.position.x = 5 := rfl
      have hv : hitBall.velocity.x = -1 := rfl
      have hr : hitBall.radius = 12 := rfl
      rw [h5, hv, hr]
      nlinarith [hf]
    · show hitBall.velocity.x * (SURFACE_FRICTION ^ Real.sqrt hitBall.mass) < 0
      have hv : hitBall.velocity.x = -1 := rfl
      rw [hv]
      nlinarith [hf]

/-- Witness for C9: the initial state is reachable with timer 0; an
unpaused no-hit update decrements timer 5 to 4 and keeps timer 0 at 0; an
unpaused update whose ball hits the left wall ends with timer 29. -/
theorem wall_glow_timer_behavior_witness :
    0 ≤ Simulation.init.wall_glow_timer ∧
    glowDemo.update.wall_glow_timer = glowDemo.wall_glow_timer - 1 ∧
    Simulation.init.update.wall_glow_timer = 0 ∧
    hitDemo.update.wall_glow_timer = WALL_GLOW_DURATION - 1 := by
  refine ⟨wall_glow_timer_behavior.1 Simulation.init Reachable.init,
    (wall_glow_timer_behavior.2.1 glowDemo rfl (by simp [glowDemo])).1
      (by norm_num [glowDemo]),
    (wall_glow_timer_behavior.2.1 Simulation.init rfl
      (by simp [Simulation.init])).2 rfl,
    wall_glow_timer_behavior.2.2 hitDemo rfl ?_⟩
  refine ⟨hitBall, by simp [hitDemo], ?_⟩
  show (Simulation.stepBall hitDemo.gravity_on hitBall).2 = true
  have hg : hitDemo.gravity_on = false := rfl
  rw [hg]
  exact stepBall_hitBall_flag

end Skunk

end
